import Mathlib

/-!
Verification of the paragraph-classification engine of the EBYÜ thesis
format validator (an Office task-pane add-in written in JavaScript).

The repository ships several near-duplicate revisions of the same engine:
`taskpane.js` (the main revision), and the revisions in `unnamed/part_000`
and `unnamed/part_001`.  Each revision's classifier and zone-switching
step is embedded below in its own namespace (`Taskpane`, `Part000`,
`Part001`); the pattern library and helper functions shared verbatim by
`taskpane.js` and `part_001` live at top level.

Strings are modelled as `List Char`.  Every JavaScript regular expression
of the pattern library is translated into an executable predicate whose
structure follows the regex literally; case-insensitive (`/i`) matching
uses the JavaScript canonicalisation rule (per-character `toUpperCase`,
under which the Turkish dotted capital İ matches only itself).
-/

/-- Strings are modelled as lists of characters. -/
abbrev Str := List Char

/-- JavaScript whitespace (`\s`) restricted to the characters that can
actually occur in the inputs at issue: space, tab, newline, CR. -/
def isWS (c : Char) : Bool :=
  c == ' ' || c == '\t' || c == '\n' || c == '\r'

/-- JavaScript regex `/i` canonicalisation: the single-character
`toUpperCase` of `c`.  ASCII lowercase letters map to uppercase
(`i ↦ I`), the six Turkish lowercase letters map to their uppercase
forms (`ı ↦ I`), everything else (including the dotted capital `İ`)
is unchanged. -/
def canon (c : Char) : Char :=
  if 'a' ≤ c ∧ c ≤ 'z' then Char.ofNat (c.toNat - 32)
  else if c == 'ç' then 'Ç'
  else if c == 'ğ' then 'Ğ'
  else if c == 'ı' then 'I'
  else if c == 'ö' then 'Ö'
  else if c == 'ş' then 'Ş'
  else if c == 'ü' then 'Ü'
  else c

/-- JavaScript `toLowerCase` of a single character, which may expand:
`İ` lowercases to `i` followed by a combining dot above (U+0307). -/
def jsLowerChar (c : Char) : Str :=
  if 'A' ≤ c ∧ c ≤ 'Z' then [Char.ofNat (c.toNat + 32)]
  else if c == 'Ç' then ['ç']
  else if c == 'Ğ' then ['ğ']
  else if c == 'İ' then ['i', Char.ofNat 0x307]
  else if c == 'Ö' then ['ö']
  else if c == 'Ş' then ['ş']
  else if c == 'Ü' then ['ü']
  else [c]

/-- JavaScript `String.prototype.toLowerCase`. -/
def jsLower (l : Str) : Str := (l.map jsLowerChar).flatten

/-- JavaScript `String.prototype.trim`. -/
def jsTrim (l : Str) : Str :=
  ((l.dropWhile isWS).reverse.dropWhile isWS).reverse

/-- Consume a literal pattern (first argument) case-insensitively from the
front of the input (second argument), returning the rest of the input.
This is the building block for anchored `/i` regex literals. -/
def ciStrip : Str → Str → Option Str
  | [], l => some l
  | _ :: _, [] => none
  | p :: ps, c :: cs => if canon c == canon p then ciStrip ps cs else none

/-- Case-insensitive whole-string equality (an `/^lit$/i` regex). -/
def ciEq (l pat : Str) : Bool := ciStrip pat l == some []

/-- Consume `\s*`. -/
def dropWS (l : Str) : Str := l.dropWhile isWS

/-- Consume `\s+` (at least one whitespace character, then greedily all). -/
def ws1 : Str → Option Str
  | [] => none
  | c :: cs => if isWS c then some (cs.dropWhile isWS) else none

/-- Consume `\d+` (at least one ASCII digit, then greedily all). -/
def digits1 : Str → Option Str
  | [] => none
  | c :: cs => if c.isDigit then some (cs.dropWhile Char.isDigit) else none

/-- Substring search (`String.prototype.includes`, and the unanchored part
of regex `test`). -/
def containsSub (hay needle : Str) : Bool :=
  hay.tails.any fun t => needle.isPrefixOf t

/-- JavaScript `parseInt` (radix 10): skip leading whitespace, optional
sign, then at least one digit; further characters are ignored.  Returns
`none` exactly when `parseInt` returns `NaN`. -/
def parseIntJS (l : Str) : Option Int :=
  let l := dropWS l
  let digitsVal : Str → Int := fun ds =>
    ds.foldl (fun a c => a * 10 + ((c.toNat : Int) - ('0'.toNat : Int))) 0
  let fromDigits : Str → Option Int := fun r =>
    let ds := r.takeWhile Char.isDigit
    if ds.isEmpty then none else some (digitsVal ds)
  match l with
  | '-' :: r => (fromDigits r).map (fun v => -v)
  | '+' :: r => fromDigits r
  | _ => fromDigits l

/-- Consume `(\.\d+)*` greedily.  The fuel argument (instantiated with the
length of the input) strictly bounds the number of iterations, each of
which consumes at least two characters, so the fuel never runs out. -/
def dotDigitsStar : Nat → Str → Str
  | 0, l => l
  | fuel + 1, l =>
    match l with
    | '.' :: rest =>
      match rest with
      | c :: _ =>
        if c.isDigit then dotDigitsStar fuel (rest.dropWhile Char.isDigit)
        else l
      | [] => l
    | _ => l

/-! ## Pattern library (`PATTERNS` of `taskpane.js` and `part_001`) -/

/-- `/^(BİRİNCİ|İKİNCİ|ÜÇÜNCÜ|DÖRDÜNCÜ|BEŞİNCİ|ALTINCI|YEDİNCİ|SEKİZİNCİ|DOKUZUNCU|ONUNCU)\s*BÖLÜM$/i` -/
def mhChapterWord (l : Str) : Bool :=
  ["BİRİNCİ".data, "İKİNCİ".data, "ÜÇÜNCÜ".data, "DÖRDÜNCÜ".data,
   "BEŞİNCİ".data, "ALTINCI".data, "YEDİNCİ".data, "SEKİZİNCİ".data,
   "DOKUZUNCU".data, "ONUNCU".data].any fun w =>
    match ciStrip w l with
    | some r => ciEq (dropWS r) "BÖLÜM".data
    | none => false

/-- `[IVX\d]` under `/i` (also matches `i`, `v`, `x` and, like JavaScript
canonicalisation, the Turkish dotless `ı`). -/
def isIVXD (c : Char) : Bool :=
  canon c == 'I' || canon c == 'V' || canon c == 'X' || c.isDigit

/-- `/^BÖLÜM\s*[IVX\d]+/i` (prefix match; the regex is not end-anchored). -/
def mhBolumNum (l : Str) : Bool :=
  match ciStrip "BÖLÜM".data l with
  | some r =>
    match dropWS r with
    | c :: _ => isIVXD c
    | [] => false
  | none => false

/-- `/^(GİRİŞ|SONUÇ|SONUÇ VE ÖNERİLER|TARTIŞMA|KAYNAKÇA|KAYNAKLAR|ÖZET|ABSTRACT|SUMMARY)$/i` -/
def mhKeyword (l : Str) : Bool :=
  ["GİRİŞ".data, "SONUÇ".data, "SONUÇ VE ÖNERİLER".data, "TARTIŞMA".data,
   "KAYNAKÇA".data, "KAYNAKLAR".data, "ÖZET".data, "ABSTRACT".data,
   "SUMMARY".data].any fun w => ciEq l w

/-- `/^ÖN\s*SÖZ$/i` -/
def mhOnsoz (l : Str) : Bool :=
  match ciStrip "ÖN".data l with
  | some r => ciEq (dropWS r) "SÖZ".data
  | none => false

/-- After `\s*`, an optional `(LİSTESİ|DİZİNİ)?` followed by `$`. -/
def optListSuffix (r : Str) : Bool :=
  r.isEmpty || ciEq r "LİSTESİ".data || ciEq r "DİZİNİ".data

/-- `/^KISALTMALAR\s*(LİSTESİ|DİZİNİ)?$/i` -/
def mhKisaltmalar (l : Str) : Bool :=
  match ciStrip "KISALTMALAR".data l with
  | some r => optListSuffix (dropWS r)
  | none => false

/-- `/^(TABLOLAR|ŞEKİLLER|GRAFİKLER|SİMGELER)\s*(LİSTESİ|DİZİNİ)?$/i` -/
def mhListHeading (l : Str) : Bool :=
  ["TABLOLAR".data, "ŞEKİLLER".data, "GRAFİKLER".data, "SİMGELER".data].any
    fun w =>
      match ciStrip w l with
      | some r => optListSuffix (dropWS r)
      | none => false

/-- `PATTERNS.MAIN_HEADING`: the disjunction of the eight main-heading
regexes, applied (as in `isMainHeadingText` / `matchesAnyPattern`) to the
trimmed text. -/
def isMainHeadingText (l : Str) : Bool :=
  mhChapterWord l || mhBolumNum l || mhKeyword l || mhOnsoz l ||
  mhKisaltmalar l || mhListHeading l || ciEq l "İÇİNDEKİLER".data ||
  ciEq l "EKLE".data || ciEq l "EKLER".data

/-- The character class `[A-ZÇĞİÖŞÜa-zçğıöşü]` (case-sensitive, as in the
source regex, which carries no `/i` flag). -/
def isHeadingLetter (c : Char) : Bool :=
  ('A' ≤ c ∧ c ≤ 'Z') || ('a' ≤ c ∧ c ≤ 'z') ||
  "ÇĞİÖŞÜçğıöşü".data.contains c

/-- `PATTERNS.SUB_HEADING`: `/^\d+\.\d+(\.\d+)*\.?\s+[A-ZÇĞİÖŞÜa-zçğıöşü]/` -/
def isSubHeadingText (l : Str) : Bool :=
  match digits1 l with
  | none => false
  | some r1 =>
    match r1 with
    | '.' :: r2 =>
      match digits1 r2 with
      | none => false
      | some r3 =>
        let r4 := dotDigitsStar r3.length r3
        let r5 := match r4 with
          | '.' :: rr => rr
          | _ => r4
        match ws1 r5 with
        | none => false
        | some r6 =>
          match r6 with
          | c :: _ => isHeadingLetter c
          | [] => false
    | _ => false

/-- `PATTERNS.CAPTION_TABLE`: `/^Tablo\s*(\d+)\.(\d+)\s*[:.]/i` -/
def captionTable (l : Str) : Bool :=
  match ciStrip "Tablo".data l with
  | none => false
  | some r =>
    match digits1 (dropWS r) with
    | none => false
    | some r2 =>
      match r2 with
      | '.' :: r3 =>
        match digits1 r3 with
        | none => false
        | some r4 =>
          match dropWS r4 with
          | c :: _ => c == ':' || c == '.'
          | [] => false
      | _ => false

/-- `PATTERNS.CAPTION_FIGURE`: `/^(Şekil|Grafik|Resim|Harita)\s*(\d+)\.(\d+)\s*[:.]/i` -/
def captionFigure (l : Str) : Bool :=
  ["Şekil".data, "Grafik".data, "Resim".data, "Harita".data].any fun w =>
    match ciStrip w l with
    | none => false
    | some r =>
      match digits1 (dropWS r) with
      | none => false
      | some r2 =>
        match r2 with
        | '.' :: r3 =>
          match digits1 r3 with
          | none => false
          | some r4 =>
            match dropWS r4 with
            | c :: _ => c == ':' || c == '.'
            | [] => false
        | _ => false

/-- The `isCaption` field of the source helper `isCaption(text)`:
`CAPTION_TABLE` or `CAPTION_FIGURE` matched against the trimmed text. -/
def isCaption (l : Str) : Bool := captionTable l || captionFigure l

/-- Anchored-at-one-position part of `PATTERNS.TOC_CONTENT`
(`\.{5,}\s*(i|v|x|\d)+$` with `/i`): at least five dots, optional
whitespace, then one or more Roman-numeral letters or digits up to the
end of the string. -/
def tocTailAt (l : Str) : Bool :=
  decide (5 ≤ (l.takeWhile (fun c => c == '.')).length) &&
  (let r := dropWS (l.dropWhile (fun c => c == '.'))
   !r.isEmpty && r.all isIVXD)

/-- `PATTERNS.TOC_CONTENT` is not start-anchored: it matches if some
position of the string starts a match. -/
def tocContent (l : Str) : Bool := l.tails.any tocTailAt

/-- Source helper `isTOCEntry(style, text)` of `taskpane.js`/`part_001`. -/
def isTOCEntry (style : Option Str) (text : Str) : Bool :=
  let styleLower := jsLower (style.getD [])
  containsSub styleLower "toc".data ||
  containsSub styleLower "içindekiler".data ||
  tocContent text

/-- `/^T\.?C\.?$/i` -/
def coverTC (l : Str) : Bool :=
  match ciStrip "T".data l with
  | none => false
  | some r =>
    let r1 := match r with
      | '.' :: rr => rr
      | _ => r
    match ciStrip "C".data r1 with
    | none => false
    | some r2 => r2.isEmpty || r2 == ['.']

/-- `/^ERZİNCAN\s*BİNALİ\s*YILDIRIM/i` (prefix match). -/
def coverErzincan (l : Str) : Bool :=
  match ciStrip "ERZİNCAN".data l with
  | none => false
  | some r =>
    match ciStrip "BİNALİ".data (dropWS r) with
    | none => false
    | some r2 => (ciStrip "YILDIRIM".data (dropWS r2)).isSome

/-- `/^(FEN|SOSYAL)\s*BİLİMLERİ\s*ENSTİTÜSÜ$/i` -/
def coverEnstitu (l : Str) : Bool :=
  ["FEN".data, "SOSYAL".data].any fun w =>
    match ciStrip w l with
    | none => false
    | some r =>
      match ciStrip "BİLİMLERİ".data (dropWS r) with
      | none => false
      | some r2 => ciEq (dropWS r2) "ENSTİTÜSÜ".data

/-- `/^(YÜKSEK\s*LİSANS|DOKTORA)\s*TEZİ$/i` -/
def coverTez (l : Str) : Bool :=
  let afterDegree : Option Str :=
    (match ciStrip "YÜKSEK".data l with
     | some r => ciStrip "LİSANS".data (dropWS r)
     | none => none) <|> ciStrip "DOKTORA".data l
  match afterDegree with
  | some r => ciEq (dropWS r) "TEZİ".data
  | none => false

/-- `/^Tez\s*Danışmanı/i` (prefix match). -/
def coverTezDanismani (l : Str) : Bool :=
  match ciStrip "Tez".data l with
  | none => false
  | some r => (ciStrip "Danışmanı".data (dropWS r)).isSome

/-- Source helper `isCoverItem(text)`: `PATTERNS.COVER_IDENTIFIERS`. -/
def isCoverItem (l : Str) : Bool :=
  coverTC l || coverErzincan l || ciEq l "ÜNİVERSİTESİ".data ||
  coverEnstitu l || coverTez l ||
  (ciStrip "DANIŞMAN".data l).isSome || coverTezDanismani l

/-- `PATTERNS.FRONT_MATTER_IDENTIFIERS` (ten regexes; `KISALTMALAR` and
`SİMGELER` are prefix matches, the rest are end-anchored). -/
def isFrontMatterId (l : Str) : Bool :=
  ciEq l "İÇİNDEKİLER".data || mhOnsoz l || ciEq l "ÖNSÖZ".data ||
  ciEq l "TEŞEKKÜR".data || (ciStrip "KISALTMALAR".data l).isSome ||
  (ciStrip "SİMGELER".data l).isSome ||
  (match ciStrip "TABLOLAR".data l with
   | some r => optListSuffix (dropWS r)
   | none => false) ||
  (match ciStrip "ŞEKİLLER".data l with
   | some r => optListSuffix (dropWS r)
   | none => false) ||
  ciEq l "ÖZET".data || ciEq l "ABSTRACT".data

/-- `PATTERNS.BODY_START`: `[/^GİRİŞ$/i]`. -/
def bodyStart (l : Str) : Bool := ciEq l "GİRİŞ".data

/-- `PATTERNS.BACK_MATTER_START`: `[/^(KAYNAKÇA|KAYNAKLAR|REFERANSLAR|REFERENCES)$/i]`. -/
def backMatterStart (l : Str) : Bool :=
  ciEq l "KAYNAKÇA".data || ciEq l "KAYNAKLAR".data ||
  ciEq l "REFERANSLAR".data || ciEq l "REFERENCES".data

/-- Source helper `isHeadingStyle(style)` of `taskpane.js`/`part_001`:
falsy styles are rejected, otherwise the lowercased style must contain
`heading`, `başlık` or `title`. -/
def isHeadingStyle (style : Option Str) : Bool :=
  match style with
  | none => false
  | some s =>
    if s.isEmpty then false
    else
      let low := jsLower s
      containsSub low "heading".data || containsSub low "başlık".data ||
      containsSub low "title".data

/-- Unanchored search for a case-insensitive word followed by `\s*` and
the digit `1` (regexes `/heading\s*1/i` and `/başlık\s*1/i`). -/
def searchWordThen1 (w : Str) (s : Str) : Bool :=
  s.tails.any fun t =>
    match ciStrip w t with
    | some r =>
      match dropWS r with
      | '1' :: _ => true
      | _ => false
    | none => false

/-- The second conjunct of `isMainByStyle` in `detectParagraphType`:
`/heading\s*1/i.test(style) || /başlık\s*1/i.test(style)`. -/
def styleHeading1 (style : Option Str) : Bool :=
  searchWordThen1 "heading".data (style.getD []) ||
  searchWordThen1 "başlık".data (style.getD [])

/-! ## Data model -/

/-- `ZONES` of `taskpane.js`. -/
inductive Zone where
  | COVER
  | FRONT_MATTER
  | TABLE_OF_CONTENTS
  | ABSTRACT_TR
  | ABSTRACT_EN
  | BODY
  | BACK_MATTER
deriving DecidableEq

/-- Union of the paragraph-type enumerations declared across the
revisions: `taskpane.js` declares all constructors except
`CAPTION_CONTENT`, which the README revision's `PARA_TYPES` adds. -/
inductive ParaType where
  | TOC_ENTRY
  | MAIN_HEADING
  | SUB_HEADING
  | BODY_TEXT
  | BLOCK_QUOTE
  | BIBLIOGRAPHY
  | CAPTION_TITLE
  | CAPTION_CONTENT
  | EPIGRAPH
  | LIST_ITEM
  | GHOST_HEADING
  | FRONT_MATTER
  | COVER_TEXT
  | EMPTY
  | UNKNOWN
deriving DecidableEq

/-- `PARA_TYPES` of `taskpane.js` (fourteen members, no `CAPTION_CONTENT`). -/
def PARA_TYPES_taskpane : List ParaType :=
  [.TOC_ENTRY, .MAIN_HEADING, .SUB_HEADING, .BODY_TEXT, .BLOCK_QUOTE,
   .BIBLIOGRAPHY, .CAPTION_TITLE, .EPIGRAPH, .LIST_ITEM, .GHOST_HEADING,
   .FRONT_MATTER, .COVER_TEXT, .EMPTY, .UNKNOWN]

/-- The host-reported outline level is duck-typed in the source: it may be
absent (undefined/null), a number, or a numeric string. -/
inductive OutlineLevel where
  | undef
  | num (n : Int)
  | str (s : Str)
deriving DecidableEq

/-- Typographic attributes of a paragraph; every field may be unresolved. -/
structure Font where
  name : Option Str := none
  size : Option Rat := none
  bold : Option Bool := none
  italic : Option Bool := none
deriving DecidableEq

/-- The Attribute Snapshot (`paraData`) fields read by the classifiers. -/
structure ParaData where
  text : Str
  style : Option Str := none
  outlineLevel : OutlineLevel := .undef
  tableNestingLevel : Nat := 0
  leftIndent : Option Rat := none
  font : Font := {}
  isListItem : Bool := false
  listString : Option Str := none
deriving DecidableEq

/-- Nominal zone order used by the monotonicity property: Cover <
FrontMatter < Abstract < Body < BackMatter (the unused
TABLE_OF_CONTENTS zone sits with FrontMatter). -/
def zoneIdx : Zone → Nat
  | .COVER => 0
  | .FRONT_MATTER => 1
  | .TABLE_OF_CONTENTS => 1
  | .ABSTRACT_TR => 2
  | .ABSTRACT_EN => 2
  | .BODY => 3
  | .BACK_MATTER => 4

/-- The ghost-heading outline check of priority 2 of
`detectParagraphType`: a defined outline level that is a number, or a
string parsing to a number, yields that number. -/
def outlineParsed : OutlineLevel → Option Int
  | .undef => none
  | .num n => some n
  | .str s => parseIntJS s

/-- Priority 2's full outline condition: the parsed level lies in 0..8. -/
def outlineGhost (ol : OutlineLevel) : Bool :=
  match outlineParsed ol with
  | some level => decide (0 ≤ level) && decide (level ≤ 8)
  | none => false

/-- `typeof outlineLevel === 'number' && outlineLevel >= 2 && outlineLevel <= 8`. -/
def subOutline : OutlineLevel → Bool
  | .num n => decide (2 ≤ n) && decide (n ≤ 8)
  | _ => false

/-- The block-quote guard `leftIndent && leftIndent >= min` with
JavaScript truthiness (a left indent of exactly 0 is falsy). -/
def leftIndentQuote (li : Option Rat) (minIndent : Rat) : Bool :=
  match li with
  | some v => !(v == 0) && decide (minIndent ≤ v)
  | none => false

/-! ## The `taskpane.js` revision -/

namespace Taskpane

/-- `EBYÜ_RULES.MIN_BODY_TEXT_LENGTH` of `taskpane.js` ("Minimum chars to
consider as body text"). -/
def MIN_BODY_TEXT_LENGTH : Nat := 30

/-- `EBYÜ_RULES.BLOCK_QUOTE_MIN_INDENT` of `taskpane.js`. -/
def BLOCK_QUOTE_MIN_INDENT : Rat := 20

/-- `detectParagraphType(paraData, zone, isInBiblio)` of `taskpane.js`
(lines 583-747): the priority chain, first match wins.  The `let`-bound
booleans of priorities 7 and 8 are inlined into their `if` conditions. -/
def detectParagraphType (paraData : ParaData) (zone : Zone)
    (isInBiblio : Bool) : ParaType :=
  let trimmed := jsTrim paraData.text
  -- Priority 1: inside table = table content
  if 0 < paraData.tableNestingLevel then
    (if isCaption trimmed then .CAPTION_TITLE else .BODY_TEXT)
  -- Priority 2: empty paragraph; check for ghost heading
  else if trimmed.length = 0 then
    (if outlineGhost paraData.outlineLevel then .GHOST_HEADING
     else if isHeadingStyle paraData.style then .GHOST_HEADING
     else .EMPTY)
  -- Priority 3: TOC entries
  else if isTOCEntry paraData.style trimmed then .TOC_ENTRY
  -- Priority 4: cover page
  else if zone == .COVER || isCoverItem trimmed then .COVER_TEXT
  -- Priority 5: captions
  else if isCaption trimmed then .CAPTION_TITLE
  -- Priority 6: bibliography zone
  else if isInBiblio && decide (5 < trimmed.length) &&
          !backMatterStart trimmed then .BIBLIOGRAPHY
  -- Priority 7: main heading (isMainByOutline || isMainByText || isMainByStyle)
  else if (paraData.outlineLevel == .num 0 || paraData.outlineLevel == .num 1) ||
          isMainHeadingText trimmed ||
          (isHeadingStyle paraData.style && styleHeading1 paraData.style) then
    .MAIN_HEADING
  -- Priority 8: sub-heading (isSubByOutline || isSubByText || isSubByStyle)
  else if subOutline paraData.outlineLevel || isSubHeadingText trimmed ||
          (isHeadingStyle paraData.style &&
           !(isHeadingStyle paraData.style && styleHeading1 paraData.style)) then
    .SUB_HEADING
  -- Priority 9: block quote (significant left indent)
  else if leftIndentQuote paraData.leftIndent BLOCK_QUOTE_MIN_INDENT then
    .BLOCK_QUOTE
  -- Priority 10: body text (note the inlined literal 20)
  else if 20 ≤ trimmed.length then .BODY_TEXT
  else .UNKNOWN

/-- The cover-exit condition of `scanDocument` (lines 3129-3145): cover
ends at ÖZET, ÖNSÖZ, a front-matter identifier, or after 15 paragraphs. -/
def coverBreakText (i : Nat) (t : Str) : Bool :=
  let textUpper := t.map canon
  textUpper == "ÖZET".data || "ÖZET".data.isPrefixOf textUpper ||
  textUpper == "ÖNSÖZ".data || "ÖNSÖZ".data.isPrefixOf textUpper ||
  isFrontMatterId t || decide (15 ≤ i)

/-- One step of the zone-switching block of `scanDocument` of
`taskpane.js` (lines 3119-3172), acting on the trimmed text of paragraph
`i`.  The two later transitions are unguarded by the current zone. -/
def scanStep (zone : Zone) (isInBiblio : Bool) (i : Nat) (t : Str) :
    Zone × Bool :=
  let z1 := if zone == .COVER && coverBreakText i t then Zone.FRONT_MATTER
            else zone
  let z2 := if bodyStart t then Zone.BODY else z1
  if backMatterStart t then (Zone.BACK_MATTER, true) else (z2, isInBiblio)

/-- The zone-tracker states after each paragraph of the scan loop,
starting from `(COVER, false)` at index 0. -/
def scanStatesAux : Nat → Zone → Bool → List Str → List (Zone × Bool)
  | _, _, _, [] => []
  | i, z, b, t :: ts =>
    let st := scanStep z b i (jsTrim t)
    st :: scanStatesAux (i + 1) st.1 st.2 ts

/-- States of the Zone Tracker after each paragraph of an input sequence. -/
def scanStates (texts : List Str) : List (Zone × Bool) :=
  scanStatesAux 0 .COVER false texts

end Taskpane

/-! ## The `unnamed/part_001` revision (tightened heading rules) -/

namespace Part001

/-- `EBYÜ_RULES.BLOCK_QUOTE_MIN_INDENT` of `part_001`. -/
def BLOCK_QUOTE_MIN_INDENT : Rat := 28

/-- `paraData.listString && /^\d+\.$/.test(paraData.listString.trim())`
(JavaScript truthiness: a missing or empty list string fails). -/
def hasMainListNumber (listString : Option Str) : Bool :=
  match listString with
  | none => false
  | some s => !s.isEmpty && (digits1 (jsTrim s) == some ['.'])

/-- `/^\d+\.\d+(\.\d+)*\.?$/` applied to the trimmed list string. -/
def subListPat (l : Str) : Bool :=
  match digits1 l with
  | none => false
  | some r1 =>
    match r1 with
    | '.' :: r2 =>
      match digits1 r2 with
      | none => false
      | some r3 =>
        let r4 := dotDigitsStar r3.length r3
        (match r4 with
         | '.' :: rr => rr
         | _ => r4).isEmpty
    | _ => false

/-- `paraData.listString && /^\d+\.\d+(\.\d+)*\.?$/.test(...trim())`. -/
def hasSubListNumber (listString : Option Str) : Bool :=
  match listString with
  | none => false
  | some s => !s.isEmpty && subListPat (jsTrim s)

/-- `part_001`'s local `subHeadingTextPattern`:
`/^\d+\.\d+(\.\d+)*\.?\s+.+/`. -/
def subHeadingTextPattern (l : Str) : Bool :=
  match digits1 l with
  | none => false
  | some r1 =>
    match r1 with
    | '.' :: r2 =>
      match digits1 r2 with
      | none => false
      | some r3 =>
        let r4 := dotDigitsStar r3.length r3
        let r5 := match r4 with
          | '.' :: rr => rr
          | _ => r4
        match ws1 r5 with
        | none => false
        | some r6 => !r6.isEmpty
    | _ => false

/-- `detectParagraphType(paraData, zone, isInBiblio)` of
`unnamed/part_001` (lines 639-843): identical to the `taskpane.js`
classifier through priority 6, with tightened (corroborated) main- and
sub-heading rules at priorities 7 and 8. -/
def detectParagraphType (paraData : ParaData) (zone : Zone)
    (isInBiblio : Bool) : ParaType :=
  let trimmed := jsTrim paraData.text
  if 0 < paraData.tableNestingLevel then
    (if isCaption trimmed then .CAPTION_TITLE else .BODY_TEXT)
  else if trimmed.length = 0 then
    (if outlineGhost paraData.outlineLevel then .GHOST_HEADING
     else if isHeadingStyle paraData.style then .GHOST_HEADING
     else .EMPTY)
  else if isTOCEntry paraData.style trimmed then .TOC_ENTRY
  else if zone == .COVER || isCoverItem trimmed then .COVER_TEXT
  else if isCaption trimmed then .CAPTION_TITLE
  else if isInBiblio && decide (5 < trimmed.length) &&
          !backMatterStart trimmed then .BIBLIOGRAPHY
  -- Priority 7: isMainByText || isMainByStyle ||
  --             (isMainByListItem && len < 100) || isMainByOutline
  else if isMainHeadingText trimmed ||
          (isHeadingStyle paraData.style && styleHeading1 paraData.style) ||
          ((paraData.isListItem && hasMainListNumber paraData.listString &&
            paraData.font.bold == some true) && decide (trimmed.length < 100)) ||
          ((paraData.outlineLevel == .num 0 || paraData.outlineLevel == .num 1) &&
           (paraData.font.bold == some true || isHeadingStyle paraData.style) &&
           decide (trimmed.length < 100)) then
    .MAIN_HEADING
  -- Priority 8: isSubByListItem || isSubByText || isSubByStyle || isSubByOutline
  else if (paraData.isListItem && hasSubListNumber paraData.listString &&
           paraData.font.bold == some true) ||
          (subHeadingTextPattern trimmed && paraData.font.bold == some true &&
           decide (trimmed.length < 150)) ||
          (isHeadingStyle paraData.style &&
           !(isHeadingStyle paraData.style && styleHeading1 paraData.style)) ||
          (subOutline paraData.outlineLevel &&
           (paraData.font.bold == some true || isHeadingStyle paraData.style) &&
           decide (trimmed.length < 150)) then
    .SUB_HEADING
  else if leftIndentQuote paraData.leftIndent BLOCK_QUOTE_MIN_INDENT then
    .BLOCK_QUOTE
  else if 20 ≤ trimmed.length then .BODY_TEXT
  else .UNKNOWN

end Part001

/-! ## The `unnamed/part_000` revision (zone step with appendix handling) -/

namespace Part000

/-- `part_000`'s `PATTERNS.BODY_START` (four regexes). -/
def bodyStart (l : Str) : Bool :=
  ciEq l "GİRİŞ".data ||
  -- /^1\.\s*GİRİŞ/i
  (match l with
   | '1' :: '.' :: r => (ciStrip "GİRİŞ".data (dropWS r)).isSome
   | _ => false) ||
  -- /^BİRİNCİ\s*BÖLÜM/i
  (match ciStrip "BİRİNCİ".data l with
   | some r => (ciStrip "BÖLÜM".data (dropWS r)).isSome
   | none => false) ||
  -- /^BÖLÜM\s*[1I]/i
  (match ciStrip "BÖLÜM".data l with
   | some r =>
     match dropWS r with
     | c :: _ => c == '1' || canon c == 'I'
     | [] => false
   | none => false)

/-- `part_000`'s `PATTERNS.BACK_MATTER_START` (five end-anchored words). -/
def backMatterStart (l : Str) : Bool :=
  ciEq l "KAYNAKÇA".data || ciEq l "KAYNAKLAR".data ||
  ciEq l "REFERANSLAR".data || ciEq l "REFERENCES".data ||
  ciEq l "BIBLIOGRAPHY".data

/-- `part_000`'s `PATTERNS.APPENDIX_START`:
`[/^EKLER?$/i, /^EK\s*\d/i, /^APPENDIX/i]`. -/
def appendixStart (l : Str) : Bool :=
  ciEq l "EKLE".data || ciEq l "EKLER".data ||
  (match ciStrip "EK".data l with
   | some r =>
     match dropWS r with
     | c :: _ => c.isDigit
     | [] => false
   | none => false) ||
  (ciStrip "APPENDIX".data l).isSome

/-- Anchored `/^word\s*\d/i` used by `part_000`'s `isHeadingStyle`. -/
def headingNumAnchored (w : Str) (s : Str) : Bool :=
  match ciStrip w s with
  | some r =>
    match dropWS r with
    | c :: _ => c.isDigit
    | [] => false
  | none => false

/-- `part_000`'s `isHeadingStyle(style)`. -/
def isHeadingStyle (style : Option Str) : Bool :=
  match style with
  | none => false
  | some s =>
    if s.isEmpty then false
    else
      let low := jsLower s
      containsSub low "heading".data || containsSub low "başlık".data ||
      headingNumAnchored "heading".data s || headingNumAnchored "başlık".data s

/-- Truthy `font.size && font.size >= 13`. -/
def fontSizeTruthyGE13 (size : Option Rat) : Bool :=
  match size with
  | some v => !(v == 0) && decide ((13 : Rat) ≤ v)
  | none => false

/-- The zone-switching block of `part_000`'s scan loop (lines 2154-2177):
a guarded body-start transition that clears the bibliography flag, a
guarded back-matter transition that sets it, and an unguarded
appendix-start step that clears it. -/
def zoneStep (zone : Zone) (biblio : Bool) (trimmed : Str)
    (fontBold : Option Bool) (fontSize : Option Rat)
    (style : Option Str) : Zone × Bool :=
  let s1 : Zone × Bool :=
    if zone == .FRONT_MATTER && bodyStart trimmed &&
       (fontBold == some true || fontSizeTruthyGE13 fontSize) then
      (.BODY, false)
    else (zone, biblio)
  let s2 : Zone × Bool :=
    if (s1.1 == .BODY || s1.1 == .FRONT_MATTER) && backMatterStart trimmed &&
       (fontBold == some true || isHeadingStyle style) then
      (.BACK_MATTER, true)
    else s1
  if appendixStart trimmed then (s2.1, false) else s2

end Part000

/-! ## Helper lemmas -/

/-- A successful whole-pattern `ciStrip` determines the canonical form of
the input. -/
lemma ciStrip_canon {w l : Str} (h : ciStrip w l = some []) :
    l.map canon = w.map canon := by
  induction w generalizing l with
  | nil =>
    rw [ciStrip] at h
    simp at h
    subst h
    rfl
  | cons p ps ih =>
    cases l with
    | nil => rw [ciStrip] at h; exact absurd h (by simp)
    | cons c cs =>
      rw [ciStrip] at h
      split at h
      · next hc => simpa [List.map, eq_of_beq hc] using ih h
      · exact absurd h (by simp)

/-- Case-insensitive equality determines the canonical form of the input. -/
lemma ciEq_canon {l w : Str} (h : ciEq l w = true) :
    l.map canon = w.map canon := by
  rw [ciEq, beq_iff_eq] at h
  exact ciStrip_canon h

lemma canon_lit_T : canon 'T' = 'T' := by decide

lemma canon_lit_S2 : canon 'Ş' = 'Ş' := by decide

lemma canon_lit_G : canon 'G' = 'G' := by decide

lemma canon_lit_R : canon 'R' = 'R' := by decide

lemma canon_lit_H : canon 'H' = 'H' := by decide

lemma canon_lit_e : canon 'e' = 'E' := by decide

lemma canon_lit_s : canon 's' = 'S' := by decide

lemma canon_lit_K : canon 'K' = 'K' := by decide

lemma canon_lit_E : canon 'E' = 'E' := by decide

lemma canon_lit_F : canon 'F' = 'F' := by decide

/-- A string whose first character canonicalises to `K` matches neither
caption pattern (their leading words start with T, Ş, G, R, H). -/
lemma isCaption_false_K {c : Char} (cs : Str) (h : canon c = 'K') :
    isCaption (c :: cs) = false := by
  simp [isCaption, captionTable, captionFigure, ciStrip, h,
        canon_lit_T, canon_lit_S2, canon_lit_G, canon_lit_R, canon_lit_H]

/-- A string whose first three characters canonicalise to `R`, `E`, `F`
matches neither caption pattern (in particular not `Resim`, which
diverges at its third letter). -/
lemma isCaption_false_REF {c c2 c3 : Char} (cs : Str) (h1 : canon c = 'R')
    (h2 : canon c2 = 'E') (h3 : canon c3 = 'F') :
    isCaption (c :: c2 :: c3 :: cs) = false := by
  simp [isCaption, captionTable, captionFigure, ciStrip, h1, h2, h3,
        canon_lit_T, canon_lit_S2, canon_lit_G, canon_lit_R, canon_lit_H,
        canon_lit_e, canon_lit_s]

/-- Text matching the bibliography-heading pattern is nonempty. -/
lemma backMatterStart_ne_nil {l : Str} (h : backMatterStart l = true) :
    l ≠ [] := by
  intro hl
  subst hl
  exact absurd h (by decide)

/-- Text matching the bibliography-heading pattern never matches a
caption pattern. -/
lemma backMatterStart_not_caption {l : Str} (h : backMatterStart l = true) :
    isCaption l = false := by
  simp only [backMatterStart, Bool.or_eq_true] at h
  rcases h with ((h | h) | h) | h
  · have hm := ciEq_canon h
    cases l with
    | nil => simp at hm
    | cons c cs =>
      simp [canon_lit_K] at hm
      exact isCaption_false_K cs hm.1
  · have hm := ciEq_canon h
    cases l with
    | nil => simp at hm
    | cons c cs =>
      simp [canon_lit_K] at hm
      exact isCaption_false_K cs hm.1
  · have hm := ciEq_canon h
    cases l with
    | nil => simp at hm
    | cons c cs =>
      cases cs with
      | nil => simp at hm
      | cons c2 cs2 =>
        cases cs2 with
        | nil => simp at hm
        | cons c3 cs3 =>
          simp [canon_lit_R, canon_lit_E, canon_lit_F] at hm
          exact isCaption_false_REF cs3 hm.1 hm.2.1 hm.2.2.1
  · have hm := ciEq_canon h
    cases l with
    | nil => simp at hm
    | cons c cs =>
      cases cs with
      | nil => simp at hm
      | cons c2 cs2 =>
        cases cs2 with
        | nil => simp at hm
        | cons c3 cs3 =>
          simp [canon_lit_R, canon_lit_E, canon_lit_F] at hm
          exact isCaption_false_REF cs3 hm.1 hm.2.1 hm.2.2.1

/-- Shared range lemma: the `taskpane.js` classifier only ever produces
one of eleven paragraph types. -/
lemma detect_mem_range (pd : ParaData) (z : Zone) (b : Bool) :
    Taskpane.detectParagraphType pd z b ∈
      ([.TOC_ENTRY, .MAIN_HEADING, .SUB_HEADING, .BODY_TEXT, .BLOCK_QUOTE,
        .BIBLIOGRAPHY, .CAPTION_TITLE, .GHOST_HEADING, .COVER_TEXT, .EMPTY,
        .UNKNOWN] : List ParaType) := by
  simp only [Taskpane.detectParagraphType]
  repeat' split
  all_goals simp

/-! ## Claim theorems -/

/-- Claim C10 (implicit): for every input snapshot, zone, and
bibliography-flag value, `detectParagraphType` never returns `EPIGRAPH`,
`LIST_ITEM`, `FRONT_MATTER`, or `CAPTION_CONTENT`; its range is limited
to the remaining eleven types. -/
theorem c10_unreachable_types (pd : ParaData) (z : Zone) (b : Bool) :
    Taskpane.detectParagraphType pd z b ∈
      ([.TOC_ENTRY, .MAIN_HEADING, .SUB_HEADING, .BODY_TEXT, .BLOCK_QUOTE,
        .BIBLIOGRAPHY, .CAPTION_TITLE, .GHOST_HEADING, .COVER_TEXT, .EMPTY,
        .UNKNOWN] : List ParaType) :=
  detect_mem_range pd z b

set_option maxHeartbeats 1600000 in
/-- Claim C2: for every Attribute Snapshot (including empty-text
paragraphs, paragraphs inside tables, and snapshots whose optional
attributes are undefined), every zone and every bibliography-flag value,
`detectParagraphType` of `taskpane.js` returns exactly one member of the
fixed `PARA_TYPES` enumeration; totality (never throwing) holds because
every rule treats an undefined attribute as a failed condition, shown
here by the block-quote rule never firing when `leftIndent` is
undefined. -/
theorem c2_classification_total :
    (∀ (pd : ParaData) (z : Zone) (b : Bool),
       Taskpane.detectParagraphType pd z b ∈ PARA_TYPES_taskpane)
  ∧ (∀ (pd : ParaData) (z : Zone) (b : Bool), pd.leftIndent = none →
       Taskpane.detectParagraphType pd z b ≠ ParaType.BLOCK_QUOTE) := by
  constructor
  · intro pd z b
    have h := detect_mem_range pd z b
    simp only [List.mem_cons, List.not_mem_nil, or_false] at h
    rcases h with h | h | h | h | h | h | h | h | h | h | h <;> rw [h] <;> decide
  · intro pd z b hli
    simp only [Taskpane.detectParagraphType]
    repeat' split
    all_goals first
      | (rename_i hq
         rw [hli] at hq
         simp [leftIndentQuote] at hq)
      | simp

theorem c2_classification_total_witness :
    Taskpane.detectParagraphType { text := "kısa".data } Zone.BODY false ≠
      ParaType.BLOCK_QUOTE :=
  c2_classification_total.2 { text := "kısa".data } Zone.BODY false rfl

/-- Claim C9 (implicit): a snapshot with `tableNestingLevel > 0` bypasses
all other rules: it classifies `CAPTION_TITLE` when the trimmed text
matches a caption pattern and `BODY_TEXT` otherwise; in particular an
empty-text paragraph inside a table is `BODY_TEXT`, never `EMPTY` or
`GHOST_HEADING`, regardless of outline level or style. -/
theorem c9_table_content (pd : ParaData) (z : Zone) (b : Bool)
    (h : 0 < pd.tableNestingLevel) :
    Taskpane.detectParagraphType pd z b =
      (if isCaption (jsTrim pd.text) then ParaType.CAPTION_TITLE
       else ParaType.BODY_TEXT)
  ∧ (jsTrim pd.text = [] →
      Taskpane.detectParagraphType pd z b = ParaType.BODY_TEXT) := by
  have hnil : isCaption [] = false := by decide
  constructor
  · simp only [Taskpane.detectParagraphType]
    simp [h]
  · intro he
    simp only [Taskpane.detectParagraphType]
    simp [h, he, hnil]

theorem c9_table_content_witness :
    Taskpane.detectParagraphType { text := [], tableNestingLevel := 1 }
      Zone.BODY false = ParaType.BODY_TEXT :=
  (c9_table_content _ _ _ (by decide)).2 rfl

/-- Claim C5: for every out-of-table snapshot whose trimmed text is
empty, `detectParagraphType` returns `GHOST_HEADING` exactly when the
snapshot carries a heading outline level in 0..8 (`outlineGhost`) or a
heading-named style, and `EMPTY` exactly when it has neither. -/
theorem c5_ghost_heading (pd : ParaData) (z : Zone) (b : Bool)
    (h0 : pd.tableNestingLevel = 0) (he : (jsTrim pd.text).length = 0) :
    (Taskpane.detectParagraphType pd z b = ParaType.GHOST_HEADING ↔
       (outlineGhost pd.outlineLevel = true ∨ isHeadingStyle pd.style = true))
  ∧ (Taskpane.detectParagraphType pd z b = ParaType.EMPTY ↔
       (outlineGhost pd.outlineLevel = false ∧
        isHeadingStyle pd.style = false)) := by
  simp only [Taskpane.detectParagraphType]
  cases hg : outlineGhost pd.outlineLevel <;>
    cases hs : isHeadingStyle pd.style <;>
      simp [h0, he, hg, hs]

theorem c5_ghost_heading_witness :
    Taskpane.detectParagraphType
      { text := [], outlineLevel := OutlineLevel.num 0 } Zone.COVER false =
      ParaType.GHOST_HEADING :=
  ((c5_ghost_heading { text := [], outlineLevel := OutlineLevel.num 0 }
      Zone.COVER false rfl rfl).1).mpr (Or.inl (by decide))

/-- Claim C4: an out-of-table, non-empty snapshot whose trimmed text
matches a caption pattern and which is not claimed by the TOC or cover
rules classifies `CAPTION_TITLE` and never `SUB_HEADING`, regardless of
its outline level, heading style, or numbering signals (the caption
check precedes the heading checks in the priority chain). -/
theorem c4_caption_precedence (pd : ParaData) (z : Zone) (b : Bool)
    (h0 : pd.tableNestingLevel = 0)
    (hcap : isCaption (jsTrim pd.text) = true)
    (htoc : isTOCEntry pd.style (jsTrim pd.text) = false)
    (hz : z ≠ Zone.COVER)
    (hcov : isCoverItem (jsTrim pd.text) = false) :
    Taskpane.detectParagraphType pd z b = ParaType.CAPTION_TITLE ∧
    Taskpane.detectParagraphType pd z b ≠ ParaType.SUB_HEADING := by
  have hne : (jsTrim pd.text).length ≠ 0 := by
    intro hlen
    rw [List.length_eq_zero] at hlen
    rw [hlen] at hcap
    exact absurd hcap (by decide)
  simp only [Taskpane.detectParagraphType]
  simp [h0, hne, htoc, hcov, hcap, hz, beq_iff_eq]

theorem c4_caption_precedence_witness :
    Taskpane.detectParagraphType
      { text := "Tablo 1.1: Örnek veri".data,
        outlineLevel := OutlineLevel.num 1,
        style := some "Heading 1".data } Zone.BODY false =
      ParaType.CAPTION_TITLE :=
  (c4_caption_precedence _ _ _ rfl (by decide) (by decide) (by decide)
    (by decide)).1

/-- Claim C3: in the tightened (corroborated) classifier of the
`part_001` revision — the rule the spec adopts as intended behaviour —
an outline level of 0 or 1 yields `MAIN_HEADING` only together with a
corroborating signal (bold font or heading-named style) and trimmed
length under the short-text threshold (100); a non-bold paragraph with
no heading-named style and no matching heading text pattern is never
classified `MAIN_HEADING` on outline level alone. -/
theorem c3_corroborated_outline (pd : ParaData) (z : Zone) (b : Bool) :
    (pd.font.bold ≠ some true → isHeadingStyle pd.style = false →
     isMainHeadingText (jsTrim pd.text) = false →
     Part001.detectParagraphType pd z b ≠ ParaType.MAIN_HEADING)
  ∧ (pd.tableNestingLevel = 0 → (jsTrim pd.text).length ≠ 0 →
     isTOCEntry pd.style (jsTrim pd.text) = false → z ≠ Zone.COVER →
     isCoverItem (jsTrim pd.text) = false →
     isCaption (jsTrim pd.text) = false →
     (b && decide (5 < (jsTrim pd.text).length) &&
       !backMatterStart (jsTrim pd.text)) = false →
     (pd.outlineLevel = OutlineLevel.num 0 ∨
      pd.outlineLevel = OutlineLevel.num 1) →
     (pd.font.bold = some true ∨ isHeadingStyle pd.style = true) →
     (jsTrim pd.text).length < 100 →
     Part001.detectParagraphType pd z b = ParaType.MAIN_HEADING) := by
  constructor
  · intro hb hs hm
    have hb' : (pd.font.bold == some true) = false := by
      rw [beq_eq_false_iff_ne]
      exact hb
    simp only [Part001.detectParagraphType]
    simp only [hm, hs, hb', Bool.false_and, Bool.and_false, Bool.or_false,
               Bool.false_or]
    repeat' split
    all_goals simp_all
  · intro h0 hne htoc hz hcov hcap hbib hout hcorr hlen
    have hout' : (pd.outlineLevel == OutlineLevel.num 0 ||
                  pd.outlineLevel == OutlineLevel.num 1) = true := by
      rcases hout with h | h <;> simp [h]
    have hcorr' : (pd.font.bold == some true ||
                   isHeadingStyle pd.style) = true := by
      rcases hcorr with h | h <;> simp [h]
    simp only [Part001.detectParagraphType]
    simp [h0, hne, htoc, hcov, hcap, hbib, hout', hcorr', hlen, hz,
          beq_iff_eq]

theorem c3_corroborated_outline_witness :
    Part001.detectParagraphType
      { text := "Kuramsal Çerçeve".data, outlineLevel := OutlineLevel.num 1,
        font := { bold := some true } } Zone.BODY false =
      ParaType.MAIN_HEADING :=
  (c3_corroborated_outline
      { text := "Kuramsal Çerçeve".data, outlineLevel := OutlineLevel.num 1,
        font := { bold := some true } } Zone.BODY false).2
    rfl (by decide) (by decide) (by decide) (by decide) (by decide)
    (by decide) (Or.inr rfl) (Or.inl rfl) (by decide)

/-- Claim C6, counterexample: "REFERANSLAR" exactly matches the
bibliography-heading pattern, yet an otherwise plain snapshot with that
text (bibliography flag true, zone Body) classifies as `UNKNOWN`, not
`MAIN_HEADING` — REFERANSLAR and REFERENCES are missing from the
main-heading text patterns, so the claim as stated is false. -/
theorem c6_counterexample :
    backMatterStart (jsTrim "REFERANSLAR".data) = true
  ∧ Taskpane.detectParagraphType { text := "REFERANSLAR".data } Zone.BODY true
      = ParaType.UNKNOWN
  ∧ ParaType.UNKNOWN ≠ ParaType.MAIN_HEADING := by decide

/-- Claim C6 as amended: an out-of-table, non-cover-zone snapshot with
the bibliography flag set whose trimmed text matches the
bibliography-heading pattern is never classified `Bibliography`; and
when its text moreover matches the main-heading text patterns (as
KAYNAKÇA and KAYNAKLAR do, but REFERANSLAR and REFERENCES do not) and
the snapshot is not claimed by the TOC or cover rules, it classifies
`MAIN_HEADING`. -/
theorem c6_biblio_heading_excluded (pd : ParaData) (z : Zone) (b : Bool)
    (h0 : pd.tableNestingLevel = 0) (hz : z ≠ Zone.COVER) (hb : b = true)
    (hbm : backMatterStart (jsTrim pd.text) = true) :
    Taskpane.detectParagraphType pd z b ≠ ParaType.BIBLIOGRAPHY
  ∧ (isMainHeadingText (jsTrim pd.text) = true →
     isTOCEntry pd.style (jsTrim pd.text) = false →
     isCoverItem (jsTrim pd.text) = false →
     Taskpane.detectParagraphType pd z b = ParaType.MAIN_HEADING) := by
  have hne : (jsTrim pd.text).length ≠ 0 := by
    intro hlen
    rw [List.length_eq_zero] at hlen
    exact backMatterStart_ne_nil hbm hlen
  have hcap := backMatterStart_not_caption hbm
  constructor
  · simp only [Taskpane.detectParagraphType]
    repeat' split
    all_goals first
      | (rename_i hq
         rw [hbm] at hq
         simp at hq)
      | simp
  · intro hmain htoc hcov
    simp only [Taskpane.detectParagraphType]
    simp [h0, hne, htoc, hcov, hcap, hz, beq_iff_eq, hmain, hbm, hb]

theorem c6_biblio_heading_excluded_witness :
    Taskpane.detectParagraphType { text := "KAYNAKÇA".data } Zone.BODY true =
      ParaType.MAIN_HEADING :=
  (c6_biblio_heading_excluded { text := "KAYNAKÇA".data } Zone.BODY true
      rfl (by decide) rfl (by decide)).2 (by decide) (by decide) (by decide)

/-- Claim C8, counterexample: a 25-character plain paragraph that no
higher-priority rule claims is classified `BODY_TEXT` although its
length is below `MIN_BODY_TEXT_LENGTH` (30) — priority 10 compares
against the inlined literal 20, not the named constant. -/
theorem c8_counterexample :
    Taskpane.detectParagraphType { text := "aaaaaaaaaaaaaaaaaaaaaaaaa".data }
      Zone.BODY false = ParaType.BODY_TEXT
  ∧ (jsTrim "aaaaaaaaaaaaaaaaaaaaaaaaa".data).length <
      Taskpane.MIN_BODY_TEXT_LENGTH := by decide

/-- Claim C8 as amended: for every snapshot that falls through to
priority 10, the classifier returns `BODY_TEXT` exactly when the trimmed
length is at least the inlined literal 20 and `UNKNOWN` exactly when it
is below 20; the named constant `MIN_BODY_TEXT_LENGTH` is 30 and is not
the threshold the classifier uses. -/
theorem c8_body_text_threshold (pd : ParaData) (z : Zone) (b : Bool)
    (h0 : pd.tableNestingLevel = 0)
    (hne : (jsTrim pd.text).length ≠ 0)
    (htoc : isTOCEntry pd.style (jsTrim pd.text) = false)
    (hz : z ≠ Zone.COVER)
    (hcov : isCoverItem (jsTrim pd.text) = false)
    (hcap : isCaption (jsTrim pd.text) = false)
    (hbib : (b && decide (5 < (jsTrim pd.text).length) &&
             !backMatterStart (jsTrim pd.text)) = false)
    (hout : (pd.outlineLevel == OutlineLevel.num 0 ||
             pd.outlineLevel == OutlineLevel.num 1) = false)
    (hmt : isMainHeadingText (jsTrim pd.text) = false)
    (hhs : isHeadingStyle pd.style = false)
    (hso : subOutline pd.outlineLevel = false)
    (hst : isSubHeadingText (jsTrim pd.text) = false)
    (hbq : leftIndentQuote pd.leftIndent Taskpane.BLOCK_QUOTE_MIN_INDENT
             = false) :
    (Taskpane.detectParagraphType pd z b = ParaType.BODY_TEXT ↔
      20 ≤ (jsTrim pd.text).length)
  ∧ (Taskpane.detectParagraphType pd z b = ParaType.UNKNOWN ↔
      (jsTrim pd.text).length < 20)
  ∧ Taskpane.MIN_BODY_TEXT_LENGTH = 30 := by
  simp only [Taskpane.detectParagraphType]
  by_cases hlen : 20 ≤ (jsTrim pd.text).length <;>
    simp [h0, hne, htoc, hcov, hcap, hbib, hout, hmt, hhs, hso, hst, hbq,
          hz, beq_iff_eq, hlen, Taskpane.MIN_BODY_TEXT_LENGTH]
  all_goals omega

theorem c8_body_text_threshold_witness :
    Taskpane.detectParagraphType
      { text := "aaaaaaaaaaaaaaaaaaaaaaaaa".data } Zone.BODY false =
      ParaType.BODY_TEXT :=
  ((c8_body_text_threshold { text := "aaaaaaaaaaaaaaaaaaaaaaaaa".data }
      Zone.BODY false rfl (by decide) (by decide) (by decide) (by decide)
      (by decide) (by decide) (by decide) (by decide) (by decide)
      (by decide) (by decide) (by decide)).1).mpr (by decide)

/-- Claim C1, counterexample: starting from `(Cover, false)`, scanning
"KAYNAKÇA" then "GİRİŞ" produces the zone sequence
`[BackMatter, Body]` — the body-start transition of `scanDocument` is
unguarded, so a body-start paragraph seen while in BackMatter moves the
zone strictly backwards in the nominal order. -/
theorem c1_counterexample :
    (Taskpane.scanStates ["KAYNAKÇA".data, "GİRİŞ".data]).map Prod.fst =
      [Zone.BACK_MATTER, Zone.BODY]
  ∧ zoneIdx Zone.BODY < zoneIdx Zone.BACK_MATTER := by decide

/-- Claim C1 as amended: every step of the `taskpane.js` Zone Tracker is
non-decreasing in the nominal order except the single unguarded
regression: from `BackMatter`, a paragraph matching the body-start
pattern moves the zone back to `Body`.  Moreover once the zone has
reached `Body` it never drops below `Body` again. -/
theorem c1_zone_monotone_except_body_regress (z : Zone) (b : Bool) (i : Nat)
    (t : Str) :
    (zoneIdx z ≤ zoneIdx (Taskpane.scanStep z b i t).1 ∨
      (z = Zone.BACK_MATTER ∧ bodyStart t = true ∧
       (Taskpane.scanStep z b i t).1 = Zone.BODY))
  ∧ (zoneIdx Zone.BODY ≤ zoneIdx z →
      zoneIdx Zone.BODY ≤ zoneIdx (Taskpane.scanStep z b i t).1) := by
  cases hb : bodyStart t <;> cases hm : backMatterStart t <;>
    cases hc : Taskpane.coverBreakText i t <;> cases z <;>
      simp [Taskpane.scanStep, hb, hm, hc, zoneIdx]

theorem c1_zone_monotone_except_body_regress_witness :
    zoneIdx Zone.BODY ≤
      zoneIdx (Taskpane.scanStep Zone.BODY true 20 "Deneme".data).1 :=
  (c1_zone_monotone_except_body_regress Zone.BODY true 20 "Deneme".data).2
    (by decide)

/-- Claim C7, counterexample: the `taskpane.js` scan loop never clears
`isInBiblio`.  From the reachable state after "KAYNAKÇA"
(BackMatter, flag set), processing "EKLER" — which matches the
appendix-start pattern — leaves the flag set; likewise processing
"GİRİŞ" fires the body-start transition yet also leaves the flag set. -/
theorem c7_counterexample :
    Part000.appendixStart (jsTrim "EKLER".data) = true
  ∧ Taskpane.scanStates ["KAYNAKÇA".data, "EKLER".data] =
      [(Zone.BACK_MATTER, true), (Zone.BACK_MATTER, true)]
  ∧ bodyStart (jsTrim "GİRİŞ".data) = true
  ∧ Taskpane.scanStates ["KAYNAKÇA".data, "GİRİŞ".data] =
      [(Zone.BACK_MATTER, true), (Zone.BODY, true)] := by decide

/-- Claim C7 as amended: the claimed behaviour is implemented by the
`part_000` revision's zone step (the only revision with appendix
handling): after any step whose text matches its appendix-start pattern
the bibliography flag is false, and whenever its guarded body-start
transition fires (and the back-matter transition does not) the step
yields `(Body, false)`. -/
theorem c7_appendix_clears_flag (z : Zone) (b : Bool) (t : Str)
    (fb : Option Bool) (fs : Option Rat) (st : Option Str) :
    (Part000.appendixStart t = true →
      (Part000.zoneStep z b t fb fs st).2 = false)
  ∧ (z = Zone.FRONT_MATTER → Part000.bodyStart t = true →
     (fb == some true || Part000.fontSizeTruthyGE13 fs) = true →
     Part000.backMatterStart t = false →
     Part000.zoneStep z b t fb fs st = (Zone.BODY, false)) := by
  constructor
  · intro ha
    simp [Part000.zoneStep, ha]
  · intro hz hbody hcond hbm
    subst hz
    simp [Part000.zoneStep, hbody, hcond, hbm]

theorem c7_appendix_clears_flag_witness :
    (Part000.zoneStep Zone.BACK_MATTER true (jsTrim "EKLER".data) none none
        none).2 = false :=
  (c7_appendix_clears_flag Zone.BACK_MATTER true (jsTrim "EKLER".data) none
      none none).1 (by decide)
